import Mathlib

/-!
Verification of the "Filament Finder" feature of the portfolio-pro
repository: the client-side Filter Engine (`public/js/filament.js`,
function `applyFilters`) and the server-side Append Service
(`server.js`, handler `app.post("/api/filaments")`).

The JavaScript is shallowly embedded: JS numbers that the code keeps
integral are modelled as `Int`/`Nat`, `NaN` outcomes of parsing as
`Option.none`, JSON/JS runtime values reaching the server as a small
`JsVal` type, and the file-system read/write of `filaments.json` as an
explicit `Store` state threaded through the handler.
-/

namespace PortfolioPro

/-! ## Client data model

A `Filament` record as stored in `filaments.json` and consumed by the
filter page (`public/js/filament.js`).  Per the data model, `color` and
`special_type` are `string | null`, modelled as `Option String`. -/

structure Filament where
  id : Nat
  brand : String
  product_name : String
  material : String
  color : Option String
  nozzle_temp_min : Int
  nozzle_temp_max : Int
  bed_temp_min : Int
  bed_temp_max : Int
  special_type : Option String
  notes : String
  deriving Repr, DecidableEq

/-! ## JavaScript `parseInt(s, 10)`

Used by `applyFilters` on the raw temperature input strings:
skip leading whitespace, optional sign, then the longest leading digit
run; `NaN` (here `none`) if no digit follows. -/

def isWs (c : Char) : Bool :=
  c == ' ' || c == '\t' || c == '\n' || c == '\r'

def digitsPrefix : List Char → List Char
  | [] => []
  | c :: cs => if c.isDigit then c :: digitsPrefix cs else []

def digitsVal (ds : List Char) : Nat :=
  ds.foldl (fun n c => 10 * n + (c.toNat - 48)) 0

def jsParseInt (s : String) : Option Int :=
  match s.toList.dropWhile isWs with
  | '-' :: rest =>
      let ds := digitsPrefix rest
      if ds.isEmpty then none else some (-(digitsVal ds : Int))
  | '+' :: rest =>
      let ds := digitsPrefix rest
      if ds.isEmpty then none else some (digitsVal ds : Int)
  | cs =>
      let ds := digitsPrefix cs
      if ds.isEmpty then none else some (digitsVal ds : Int)

/-! ## Filter Engine (`applyFilters`)

The DOM inputs: three `<select>` values (empty string = "Any ...") and
two free-text temperature fields, parsed with `parseInt(..., 10)`. -/

structure FilterInputs where
  material : String
  brand : String
  color : String
  nozzle : String
  bed : String
  deriving Repr, DecidableEq

/-- `Number.isNaN(value) || (lo <= value && value <= hi)` where `value`
came out of `parseInt` (`none` = `NaN`). -/
def tempMatches (value : Option Int) (lo hi : Int) : Bool :=
  match value with
  | none => true
  | some t => decide (lo ≤ t) && decide (t ≤ hi)

/-- The predicate body of the `filaments.filter((f) => ...)` call in
`applyFilters`: conjunction of the five per-field checks, each skipped
when its input is absent (`!materialValue ||`, `Number.isNaN(...) ||`). -/
def matchesFilter (q : FilterInputs) (f : Filament) : Bool :=
  let nozzleValue := jsParseInt q.nozzle
  let bedValue := jsParseInt q.bed
  let matchesMaterial := q.material == "" || f.material == q.material
  let matchesBrand := q.brand == "" || f.brand == q.brand
  let matchesColor := q.color == "" || f.color == some q.color
  let matchesNozzle := tempMatches nozzleValue f.nozzle_temp_min f.nozzle_temp_max
  let matchesBed := tempMatches bedValue f.bed_temp_min f.bed_temp_max
  matchesMaterial && matchesBrand && matchesColor && matchesNozzle && matchesBed

/-- `applyFilters`: `filaments.filter((f) => ...)` over the in-memory
collection (the rendering side effect is out of scope). -/
def applyFilters (q : FilterInputs) (filaments : List Filament) : List Filament :=
  filaments.filter (matchesFilter q)

/-- The filter state with every control cleared (the reset state:
no predicate supplied). -/
def noFilter : FilterInputs :=
  { material := "", brand := "", color := "", nozzle := "", bed := "" }

/-! ## Spec-side predicate

Written from the spec's words (§4.1 / §8): a filament "satisfies every
supplied predicate", where a select contributes an exact-match predicate
when non-empty and a temperature input contributes inclusive range
containment when it parses as an integer. -/

def SpecSatisfies (q : FilterInputs) (f : Filament) : Prop :=
  (q.material ≠ "" → f.material = q.material) ∧
  (q.brand ≠ "" → f.brand = q.brand) ∧
  (q.color ≠ "" → f.color = some q.color) ∧
  (∀ t, jsParseInt q.nozzle = some t →
    f.nozzle_temp_min ≤ t ∧ t ≤ f.nozzle_temp_max) ∧
  (∀ t, jsParseInt q.bed = some t →
    f.bed_temp_min ≤ t ∧ t ≤ f.bed_temp_max)

theorem matchesFilter_iff (q : FilterInputs) (f : Filament) :
    matchesFilter q f = true ↔ SpecSatisfies q f := by
  simp only [matchesFilter, SpecSatisfies, tempMatches, Bool.and_eq_true,
    Bool.or_eq_true, beq_iff_eq, decide_eq_true_eq]
  cases jsParseInt q.nozzle <;> cases jsParseInt q.bed <;>
    simp <;> tauto

instance (q : FilterInputs) (f : Filament) : Decidable (SpecSatisfies q f) :=
  decidable_of_iff (matchesFilter q f = true) (matchesFilter_iff q f)

/-- A sample filament used by concrete evaluations (spec §8 scenario 1:
Acme PLA, nozzle 190–210, bed 50–60). -/
def acmePLA : Filament :=
  { id := 1, brand := "Acme", product_name := "PLA Basic", material := "PLA"
    color := some "black", nozzle_temp_min := 190, nozzle_temp_max := 210
    bed_temp_min := 50, bed_temp_max := 60, special_type := none, notes := "" }

example : applyFilters { noFilter with nozzle := "200" } [acmePLA] = [acmePLA] := by decide
example : applyFilters { noFilter with nozzle := "230" } [acmePLA] = [] := by decide
example : jsParseInt "abc" = none := by decide
example : jsParseInt " -42 " = some (-42) := by decide
example : jsParseInt "" = none := by decide
example : jsParseInt "12px" = some 12 := by decide

/-- A filament with nozzle range 200–220 (and bed range 50–60), used for
the concrete boundary checks of the temperature predicate. -/
def pla200 : Filament :=
  { id := 2, brand := "Generic", product_name := "PLA 200", material := "PLA"
    color := none, nozzle_temp_min := 200, nozzle_temp_max := 220
    bed_temp_min := 50, bed_temp_max := 60, special_type := none, notes := "" }

/-! ## Claim theorems: Filter Engine -/

/-- C1: for every filaments collection and every combination of supplied
filter values, `applyFilters` returns exactly the subsequence of
filaments satisfying the conjunction of every supplied predicate
(`SpecSatisfies`), in the original relative order (it is `List.filter`
with that predicate, hence a sublist); with no predicate supplied
(`noFilter`) it returns the collection unchanged. -/
theorem applyFilters_exact (q : FilterInputs) (l : List Filament) :
    applyFilters q l = l.filter (fun f => decide (SpecSatisfies q f)) ∧
    List.Sublist (applyFilters q l) l ∧
    (∀ f, f ∈ applyFilters q l ↔ f ∈ l ∧ SpecSatisfies q f) ∧
    applyFilters noFilter l = l := by
  have hpt : ∀ f, matchesFilter q f = decide (SpecSatisfies q f) := by
    intro f
    by_cases h : SpecSatisfies q f
    · simp [h, (matchesFilter_iff q f).mpr h]
    · rw [decide_eq_false h]
      exact Bool.eq_false_iff.mpr fun hc => h ((matchesFilter_iff q f).mp hc)
  refine ⟨?_, ?_, ?_, ?_⟩
  · unfold applyFilters
    exact List.filter_congr fun f _ => hpt f
  · exact List.filter_sublist l
  · intro f
    unfold applyFilters
    rw [List.mem_filter, matchesFilter_iff]
  · unfold applyFilters
    refine List.filter_eq_self.mpr fun f _ => ?_
    exact (matchesFilter_iff noFilter f).mpr
      ⟨fun h => absurd rfl h, fun h => absurd rfl h, fun h => absurd rfl h,
       fun t ht => by simp [show jsParseInt noFilter.nozzle = none from rfl] at ht,
       fun t ht => by simp [show jsParseInt noFilter.bed = none from rfl] at ht⟩

/-- C2: the temperature predicate is inclusive range containment at both
bounds: in general a parsed query temperature `t` passes exactly when
`min ≤ t ≤ max`, and concretely a filament with nozzle range 200–220
matches query temperature 200 and 220 but not 199 or 221 (same
`tempMatches` function is applied to the bed range). -/
theorem tempMatches_inclusive :
    (∀ (f : Filament) (t : Int),
      tempMatches (some t) f.nozzle_temp_min f.nozzle_temp_max = true ↔
        f.nozzle_temp_min ≤ t ∧ t ≤ f.nozzle_temp_max) ∧
    (∀ (f : Filament) (t : Int),
      tempMatches (some t) f.bed_temp_min f.bed_temp_max = true ↔
        f.bed_temp_min ≤ t ∧ t ≤ f.bed_temp_max) ∧
    applyFilters { noFilter with nozzle := "200" } [pla200] = [pla200] ∧
    applyFilters { noFilter with nozzle := "220" } [pla200] = [pla200] ∧
    applyFilters { noFilter with nozzle := "199" } [pla200] = [] ∧
    applyFilters { noFilter with nozzle := "221" } [pla200] = [] := by
  refine ⟨?_, ?_, by decide, by decide, by decide, by decide⟩
  · intro f t; simp [tempMatches]
  · intro f t; simp [tempMatches]

/-- C8: a non-numeric temperature input (one `parseInt` maps to `NaN`,
i.e. `jsParseInt` maps to `none`) imposes no constraint: filtering with
it gives the same result as filtering with that input cleared.  (The
embedding is a total function: no error is possible.) -/
theorem nonNumericTemp_noConstraint (q : FilterInputs) (l : List Filament) :
    (jsParseInt q.nozzle = none →
      applyFilters q l = applyFilters { q with nozzle := "" } l) ∧
    (jsParseInt q.bed = none →
      applyFilters q l = applyFilters { q with bed := "" } l) := by
  have h0 : jsParseInt "" = none := rfl
  constructor
  · intro h
    unfold applyFilters
    exact List.filter_congr fun f _ => by simp [matchesFilter, h, h0]
  · intro h
    unfold applyFilters
    exact List.filter_congr fun f _ => by simp [matchesFilter, h, h0]

/-- Witness for C8 at the concrete non-numeric inputs "abc" (nozzle)
and "xyz" (bed), on a one-element collection. -/
theorem nonNumericTemp_noConstraint_witness :
    applyFilters { noFilter with nozzle := "abc" } [acmePLA] =
      applyFilters noFilter [acmePLA] ∧
    applyFilters { noFilter with bed := "xyz" } [acmePLA] =
      applyFilters noFilter [acmePLA] :=
  ⟨(nonNumericTemp_noConstraint { noFilter with nozzle := "abc" } [acmePLA]).1
      (by decide),
   (nonNumericTemp_noConstraint { noFilter with bed := "xyz" } [acmePLA]).2
      (by decide)⟩

/-- C9: filtering is idempotent: applying the same filter to its own
output changes nothing (pure function of its inputs). -/
theorem applyFilters_idempotent (q : FilterInputs) (l : List Filament) :
    applyFilters q (applyFilters q l) = applyFilters q l := by
  unfold applyFilters
  exact List.filter_eq_self.mpr fun f hf => (List.mem_filter.mp hf).2

/-! ## Server side: the Append Service (`app.post("/api/filaments")`)

JSON/JS values reaching the handler are modelled by `JsVal` (strings,
integral numbers, `null`); an absent property is `Option.none` around
it.  The read-modify-write on `public/data/filaments.json` is modelled
by an explicit `Store`. -/

inductive JsVal
  | str (s : String)
  | num (n : Int)
  | nullv
  deriving Repr, DecidableEq

/-- JS truthiness of a possibly-absent value (`none` = `undefined`):
`undefined`, `null`, `""` and `0` are falsy. -/
def truthy : Option JsVal → Bool
  | none => false
  | some .nullv => false
  | some (.str s) => !(s == "")
  | some (.num n) => !(n == 0)

def trimWs (cs : List Char) : List Char :=
  ((cs.dropWhile isWs).reverse.dropWhile isWs).reverse

/-- `Number(s)` on a string: whitespace is trimmed, the empty result is
`0`, otherwise the whole string must be an (optionally signed) integer
literal, else `NaN` (`none`).  Fractional and exotic numeric literals
are outside this model; the data model's temperatures are integers. -/
def jsStrToNumber (s : String) : Option Int :=
  match trimWs s.toList with
  | [] => some 0
  | '-' :: rest =>
      if rest.isEmpty || !rest.all Char.isDigit then none
      else some (-(digitsVal rest : Int))
  | '+' :: rest =>
      if rest.isEmpty || !rest.all Char.isDigit then none
      else some (digitsVal rest : Int)
  | cs =>
      if cs.all Char.isDigit then some (digitsVal cs : Int) else none

/-- `Number(x)` on a possibly-absent value; `none` on the right models
`NaN`: `Number(undefined) = NaN`, `Number(null) = 0`. -/
def jsToNumber : Option JsVal → Option Int
  | none => none
  | some .nullv => some 0
  | some (.num n) => some n
  | some (.str s) => jsStrToNumber s

/-- The parsed JSON request body (`req.body`); each property may be
absent. -/
structure Body where
  brand : Option JsVal
  product_name : Option JsVal
  material : Option JsVal
  color : Option JsVal
  nozzle_temp_min : Option JsVal
  nozzle_temp_max : Option JsVal
  bed_temp_min : Option JsVal
  bed_temp_max : Option JsVal
  special_type : Option JsVal
  notes : Option JsVal
  deriving Repr, DecidableEq

/-- A filament record as the handler constructs and stores it.  The
temperatures are the `Number(...)` coercions (guaranteed non-NaN by the
validation that precedes construction); `color`/`special_type` are
`none` when the handler stored JSON `null`. -/
structure StoredFilament where
  id : Nat
  brand : JsVal
  product_name : JsVal
  material : JsVal
  color : Option JsVal
  nozzle_temp_min : Int
  nozzle_temp_max : Int
  bed_temp_min : Int
  bed_temp_max : Int
  special_type : Option JsVal
  notes : JsVal
  deriving Repr, DecidableEq

/-- The parsed `filaments.json` document; a missing `filaments` key is
`none` (the handler defaults it with `data.filaments || []`). -/
structure Catalog where
  materials : List JsVal
  filaments : Option (List StoredFilament)
  deriving Repr, DecidableEq

instance : DecidableEq (Except String Catalog) := fun a b =>
  match a, b with
  | .ok x, .ok y =>
      if h : x = y then .isTrue (congrArg Except.ok h)
      else .isFalse fun hc => h (Except.ok.inj hc)
  | .error x, .error y =>
      if h : x = y then .isTrue (congrArg Except.error h)
      else .isFalse fun hc => h (Except.error.inj hc)
  | .ok _, .error _ => .isFalse fun hc => Except.noConfusion hc
  | .error _, .ok _ => .isFalse fun hc => Except.noConfusion hc

/-- The persisted file: `.error msg` models an unreadable or unparsable
document, `msg` being the raw exception text; `writable = false` models
a failing `writeFileSync`. -/
structure Store where
  doc : Except String Catalog
  writable : Bool
  deriving Repr, DecidableEq

/-- The three possible JSON responses of the handler. -/
inductive HandlerResponse
  | badRequest (error : String)
  | created (filament : StoredFilament)
  | serverError (error : String)
  deriving Repr, DecidableEq

def statusOf : HandlerResponse → Nat
  | .badRequest _ => 400
  | .created _ => 201
  | .serverError _ => 500

def requiredErrMsg : String := "brand, product_name and material are required"

def numErrMsg (field : String) : String := "Field " ++ field ++ " must be a number"

def storageErrMsg : String := "Could not save filament. Please try again later."

def requiredFieldsOk (b : Body) : Bool :=
  truthy b.brand && truthy b.product_name && truthy b.material

/-- The `tempFields` array of the handler, paired with the property
each name accesses. -/
def tempFields : List (String × (Body → Option JsVal)) :=
  [("nozzle_temp_min", Body.nozzle_temp_min),
   ("nozzle_temp_max", Body.nozzle_temp_max),
   ("bed_temp_min", Body.bed_temp_min),
   ("bed_temp_max", Body.bed_temp_max)]

/-- The `for (const field of tempFields)` loop returns on the first
field whose `Number(...)` coercion is `NaN`. -/
def firstNaNField (b : Body) : Option String :=
  (tempFields.find? fun p => (jsToNumber (p.2 b)).isNone).map Prod.fst

/-- `filaments.reduce((max, f) => Math.max(max, f.id || 0), 0)`. -/
def maxId (filaments : List StoredFilament) : Nat :=
  filaments.foldl (fun m f => Nat.max m f.id) 0

/-- The `newFilament` object literal: `color: body.color || null`,
`special_type: body.special_type || null`, `notes: body.notes || ""`,
temperatures via `Number(...)`.  The required string fields are present
whenever this is reached (validation passed), so `getD .nullv` never
fires on them. -/
def mkFilament (b : Body) (newId : Nat) : StoredFilament :=
  { id := newId
    brand := b.brand.getD .nullv
    product_name := b.product_name.getD .nullv
    material := b.material.getD .nullv
    color := if truthy b.color then b.color else none
    nozzle_temp_min := (jsToNumber b.nozzle_temp_min).getD 0
    nozzle_temp_max := (jsToNumber b.nozzle_temp_max).getD 0
    bed_temp_min := (jsToNumber b.bed_temp_min).getD 0
    bed_temp_max := (jsToNumber b.bed_temp_max).getD 0
    special_type := if truthy b.special_type then b.special_type else none
    notes := (if truthy b.notes then b.notes else some (.str "")).getD (.str "") }

/-- The handler of `POST /api/filaments` in `server.js`: required-field
check, then the temperature loop, then the guarded read-modify-write.
Both a read/parse failure and a write failure land in the same `catch`
and produce the same generic 500 body. -/
def postFilaments (b : Body) (st : Store) : HandlerResponse × Store :=
  if !truthy b.brand || !truthy b.product_name || !truthy b.material then
    (.badRequest requiredErrMsg, st)
  else
    match firstNaNField b with
    | some field => (.badRequest (numErrMsg field), st)
    | none =>
      match st.doc with
      | .error _ => (.serverError storageErrMsg, st)
      | .ok data =>
        let filaments := data.filaments.getD []
        let newFilament := mkFilament b (maxId filaments + 1)
        if st.writable then
          (.created newFilament,
            { st with doc := .ok { data with filaments := some (filaments ++ [newFilament]) } })
        else
          (.serverError storageErrMsg, st)

/-- A store whose document holds an empty `filaments` collection. -/
def initStore (ms : List JsVal) : Store :=
  { doc := .ok { materials := ms, filaments := some [] }, writable := true }

/-- Sequential (non-concurrent) submission of a list of requests. -/
def postSeq (bodies : List Body) (st : Store) : Store :=
  bodies.foldl (fun s b => (postFilaments b s).2) st

/-- The ids currently persisted in the store's document. -/
def storeIds (st : Store) : List Nat :=
  match st.doc with
  | .ok d => (d.filaments.getD []).map StoredFilament.id
  | .error _ => []

/-- A body passing every validation check. -/
def validBody (b : Body) : Bool :=
  requiredFieldsOk b && (firstNaNField b).isNone

/-- Spec §3 invariant on a filaments collection: ids are unique positive
integers. -/
def IdsUniquePos (l : List StoredFilament) : Prop :=
  (l.map StoredFilament.id).Nodup ∧ ∀ f ∈ l, 0 < f.id

/-- The valid body of spec §8 scenario 2. -/
def demoBody : Body :=
  { brand := some (.str "X"), product_name := some (.str "Y")
    material := some (.str "PLA"), color := none
    nozzle_temp_min := some (.num 200), nozzle_temp_max := some (.num 220)
    bed_temp_min := some (.num 50), bed_temp_max := some (.num 60)
    special_type := none, notes := none }

example : validBody demoBody = true := by decide
example : statusOf (postFilaments demoBody (initStore [])).1 = 201 := by decide
example : storeIds (postSeq [demoBody, demoBody] (initStore [])) = [1, 2] := by decide
example : jsStrToNumber "abc" = none := by decide
example : jsStrToNumber "" = some 0 := by decide
example : jsStrToNumber " 42 " = some 42 := by decide

/-! ## Id assignment lemmas -/

theorem foldl_max_spec (l : List StoredFilament) (a : Nat) :
    a ≤ l.foldl (fun m f => Nat.max m f.id) a ∧
    ∀ f ∈ l, f.id ≤ l.foldl (fun m f => Nat.max m f.id) a := by
  induction l generalizing a with
  | nil => exact ⟨Nat.le_refl a, fun f hf => absurd hf (List.not_mem_nil f)⟩
  | cons x t ih =>
    refine ⟨Nat.le_trans (Nat.le_max_left a x.id) (ih (Nat.max a x.id)).1, ?_⟩
    intro f hf
    rcases List.mem_cons.mp hf with h | h
    · exact Nat.le_trans (h ▸ Nat.le_max_right a x.id) (ih (Nat.max a x.id)).1
    · exact (ih (Nat.max a x.id)).2 f h

theorem mem_id_le_maxId (l : List StoredFilament) (f : StoredFilament)
    (hf : f ∈ l) : f.id ≤ maxId l :=
  (foldl_max_spec l 0).2 f hf

theorem range'_foldl_max (k : Nat) : (List.range' 1 k).foldl Nat.max 0 = k := by
  induction k with
  | zero => rfl
  | succ n ih =>
      rw [List.range'_concat, List.foldl_append, ih]
      simp [Nat.max_def]
      omega

theorem maxId_of_range (l : List StoredFilament) (k : Nat)
    (h : l.map StoredFilament.id = List.range' 1 k) : maxId l = k := by
  have hm : maxId l = (l.map StoredFilament.id).foldl Nat.max 0 := by
    rw [List.foldl_map]; rfl
  rw [hm, h, range'_foldl_max]

/-! ## Handler case analysis -/

theorem validBody_parts (b : Body) (hv : validBody b = true) :
    truthy b.brand = true ∧ truthy b.product_name = true ∧
    truthy b.material = true ∧ firstNaNField b = none := by
  simp only [validBody, requiredFieldsOk, Bool.and_eq_true,
    Option.isNone_iff_eq_none] at hv
  exact ⟨hv.1.1.1, hv.1.1.2, hv.1.2, hv.2⟩

theorem postFilaments_success (b : Body) (st : Store) (d : Catalog)
    (hv : validBody b = true) (hd : st.doc = .ok d) (hw : st.writable = true) :
    postFilaments b st =
      (.created (mkFilament b (maxId (d.filaments.getD []) + 1)),
       { st with doc := .ok { d with
          filaments := some (d.filaments.getD [] ++ [mkFilament b (maxId (d.filaments.getD []) + 1)]) } }) := by
  obtain ⟨h1, h2, h3, h4⟩ := validBody_parts b hv
  simp [postFilaments, h1, h2, h3, h4, hd, hw]

theorem postFilaments_store_cases (b : Body) (st : Store) :
    (postFilaments b st).2 = st ∨
    ∃ d, st.doc = .ok d ∧ validBody b = true ∧ st.writable = true ∧
      (postFilaments b st).2 =
        { st with doc := .ok { d with
           filaments := some (d.filaments.getD [] ++ [mkFilament b (maxId (d.filaments.getD []) + 1)]) } } := by
  cases hb : truthy b.brand with
  | false => left; simp [postFilaments, hb]
  | true =>
  cases hp : truthy b.product_name with
  | false => left; simp [postFilaments, hb, hp]
  | true =>
  cases hm : truthy b.material with
  | false => left; simp [postFilaments, hb, hp, hm]
  | true =>
  cases hn : firstNaNField b with
  | some f => left; simp [postFilaments, hb, hp, hm, hn]
  | none =>
  cases hdoc : st.doc with
  | error e => left; simp [postFilaments, hb, hp, hm, hn, hdoc]
  | ok d =>
  cases hw : st.writable with
  | false => left; simp [postFilaments, hb, hp, hm, hn, hdoc, hw]
  | true =>
    right
    refine ⟨d, rfl, ?_, rfl, ?_⟩
    · simp [validBody, requiredFieldsOk, hb, hp, hm, hn]
    · simp [postFilaments, hb, hp, hm, hn, hdoc, hw]

theorem postSeq_ids_aux (bodies : List Body) :
    ∀ (st : Store) (d : Catalog) (k : Nat), st.writable = true → st.doc = .ok d →
      (d.filaments.getD []).map StoredFilament.id = List.range' 1 k →
      (∀ b ∈ bodies, validBody b = true) →
      storeIds (postSeq bodies st) = List.range' 1 (k + bodies.length) := by
  induction bodies with
  | nil =>
      intro st d k hw hd hids _
      simp [postSeq, storeIds, hd, hids]
  | cons b rest ih =>
      intro st d k hw hd hids hv
      have hvb : validBody b = true := hv b (List.mem_cons_self b rest)
      have hsucc := postFilaments_success b st d hvb hd hw
      have hst2 : (postFilaments b st).2 =
          { st with doc := .ok { d with
             filaments := some (d.filaments.getD [] ++ [mkFilament b (maxId (d.filaments.getD []) + 1)]) } } := by
        rw [hsucc]
      have hmax : maxId (d.filaments.getD []) = k := maxId_of_range _ _ hids
      have hstep : postSeq (b :: rest) st = postSeq rest (postFilaments b st).2 := rfl
      rw [hstep, hst2]
      have hlen : k + (b :: rest).length = (k + 1) + rest.length := by
        simp [List.length_cons]
        omega
      rw [hlen]
      refine ih { st with doc := .ok { d with
          filaments := some (d.filaments.getD [] ++ [mkFilament b (maxId (d.filaments.getD []) + 1)]) } }
        { d with filaments := some (d.filaments.getD [] ++ [mkFilament b (maxId (d.filaments.getD []) + 1)]) }
        (k + 1) hw rfl ?_ fun b' hb' => hv b' (List.mem_cons_of_mem b hb')
      simp [List.map_append, hids, hmax, List.range'_concat, mkFilament]
      omega

/-! ## Claim theorems: Append Service -/

/-- C3: the id assigned to a new filament is `max(existing ids, 0) + 1`:
after any number of successful sequential appends of valid bodies
starting from an empty `filaments` collection the ids are exactly
`1..N` (`List.range' 1 N`), and every append preserves the invariant
that filament ids are unique positive integers. -/
theorem append_id_assignment :
    (∀ (b : Body) (st : Store) (d : Catalog), validBody b = true →
      st.doc = .ok d → st.writable = true →
      (postFilaments b st).1 =
        .created (mkFilament b (maxId (d.filaments.getD []) + 1))) ∧
    (∀ (ms : List JsVal) (bodies : List Body),
      (∀ b ∈ bodies, validBody b = true) →
      storeIds (postSeq bodies (initStore ms)) = List.range' 1 bodies.length) ∧
    (∀ (st : Store) (b : Body) (d : Catalog), st.doc = .ok d →
      IdsUniquePos (d.filaments.getD []) →
      ∀ d', ((postFilaments b st).2).doc = .ok d' →
        IdsUniquePos (d'.filaments.getD [])) := by
  refine ⟨fun b st d hv hd hw => by rw [postFilaments_success b st d hv hd hw], ?_, ?_⟩
  · intro ms bodies hv
    have h := postSeq_ids_aux bodies (initStore ms)
      { materials := ms, filaments := some [] } 0 rfl rfl (by simp) hv
    simpa using h
  · intro st b d hd hinv d' hd'
    rcases postFilaments_store_cases b st with hcase | ⟨d0, hdoc0, _, _, heq⟩
    · rw [hcase, hd] at hd'
      cases hd'
      exact hinv
    · have hdd : d0 = d := by
        rw [hd] at hdoc0
        exact (Except.ok.inj hdoc0).symm
      subst hdd
      rw [heq] at hd'
      have hEq : ({ d0 with
          filaments := some (d0.filaments.getD [] ++ [mkFilament b (maxId (d0.filaments.getD []) + 1)]) } : Catalog) = d' :=
        Except.ok.inj hd'
      rw [← hEq]
      constructor
      · rw [show ({ d0 with
            filaments := some (d0.filaments.getD [] ++ [mkFilament b (maxId (d0.filaments.getD []) + 1)]) } : Catalog).filaments.getD []
            = d0.filaments.getD [] ++ [mkFilament b (maxId (d0.filaments.getD []) + 1)] from rfl]
        rw [List.map_append]
        refine List.nodup_append.mpr ⟨hinv.1, List.nodup_singleton _, ?_⟩
        intro a ha hb
        simp only [List.map_cons, List.map_nil, List.mem_singleton] at hb
        obtain ⟨f, hf, hfa⟩ := List.mem_map.mp ha
        have hle : f.id ≤ maxId (d0.filaments.getD []) :=
          mem_id_le_maxId _ f hf
        rw [show (mkFilament b (maxId (d0.filaments.getD []) + 1)).id
            = maxId (d0.filaments.getD []) + 1 from rfl] at hb
        omega
      · intro f hf
        rcases List.mem_append.mp hf with h | h
        · exact hinv.2 f h
        · rw [List.mem_singleton.mp h]
          exact Nat.succ_pos _

/-- Witness for C3: two appends of the scenario-2 body from the empty
collection yield ids `[1, 2]`, and one append from the empty collection
preserves the unique-positive-ids invariant. -/
theorem append_id_assignment_witness :
    storeIds (postSeq [demoBody, demoBody] (initStore [])) = List.range' 1 2 ∧
    IdsUniquePos ((({ materials := [], filaments := some [mkFilament demoBody 1] } : Catalog)).filaments.getD []) :=
  ⟨append_id_assignment.2.1 [] [demoBody, demoBody] (by decide),
   append_id_assignment.2.2 (initStore []) demoBody
     { materials := [], filaments := some [] } rfl
     (by simp [IdsUniquePos]) _ (by decide)⟩

theorem requiredOk_parts (b : Body) (hr : requiredFieldsOk b = true) :
    truthy b.brand = true ∧ truthy b.product_name = true ∧
    truthy b.material = true := by
  simp only [requiredFieldsOk, Bool.and_eq_true] at hr
  exact ⟨hr.1.1, hr.1.2, hr.2⟩

/-- C4 counterexample: a request whose `brand` is the whitespace-only
string " " — a string that is empty after trimming — is not rejected:
the handler accepts it and responds 201, because the required-field
check is JS truthiness on the untrimmed value. -/
theorem required_no_trim_cex :
    trimWs (" ").toList = [] ∧
    statusOf (postFilaments { demoBody with brand := some (.str " ") }
      (initStore [])).1 = 201 := by
  exact ⟨by decide, by decide⟩

/-- C4 (amended): `brand`, `product_name` and `material` are required
to be JS-truthy (present and non-empty, with no trimming applied; a
whitespace-only string passes): if any of the three is falsy the
handler fails fast with the single combined 400 error, before any
temperature check and leaving the store untouched. -/
theorem requiredFields_falsy_400 (b : Body) (st : Store)
    (h : truthy b.brand = false ∨ truthy b.product_name = false ∨
      truthy b.material = false) :
    (postFilaments b st).1 = .badRequest requiredErrMsg ∧
    (postFilaments b st).2 = st := by
  rcases h with h | h | h <;> simp [postFilaments, h]

/-- Witness for the amended C4 at a body with `brand` absent. -/
theorem requiredFields_falsy_400_witness :
    (postFilaments { demoBody with brand := none } (initStore [])).1 =
      .badRequest requiredErrMsg ∧
    (postFilaments { demoBody with brand := none } (initStore [])).2 =
      initStore [] :=
  requiredFields_falsy_400 { demoBody with brand := none } (initStore [])
    (Or.inl rfl)

/-- C5: a falsy `brand` forces the missing-required-field error no
matter what the temperature fields hold; once the required fields pass,
the response names the field `firstNaNField` finds; and `firstNaNField`
is the first non-numeric field in the order `nozzle_temp_min`,
`nozzle_temp_max`, `bed_temp_min`, `bed_temp_max`. -/
theorem validation_precedence (b : Body) (st : Store) :
    (truthy b.brand = false →
      (postFilaments b st).1 = .badRequest requiredErrMsg) ∧
    (∀ field, requiredFieldsOk b = true → firstNaNField b = some field →
      (postFilaments b st).1 = .badRequest (numErrMsg field)) ∧
    firstNaNField b =
      (if (jsToNumber b.nozzle_temp_min).isNone then some "nozzle_temp_min"
       else if (jsToNumber b.nozzle_temp_max).isNone then some "nozzle_temp_max"
       else if (jsToNumber b.bed_temp_min).isNone then some "bed_temp_min"
       else if (jsToNumber b.bed_temp_max).isNone then some "bed_temp_max"
       else none) := by
  refine ⟨?_, ?_, ?_⟩
  · intro h
    simp [postFilaments, h]
  · intro field hr hn
    obtain ⟨h1, h2, h3⟩ := requiredOk_parts b hr
    simp [postFilaments, h1, h2, h3, hn]
  · simp only [firstNaNField, tempFields, List.find?]
    by_cases h1 : (jsToNumber b.nozzle_temp_min).isNone <;>
      by_cases h2 : (jsToNumber b.nozzle_temp_max).isNone <;>
        by_cases h3 : (jsToNumber b.bed_temp_min).isNone <;>
          by_cases h4 : (jsToNumber b.bed_temp_max).isNone <;>
            simp [h1, h2, h3, h4]

/-- Witness for C5: a body missing `brand` with a non-numeric
`bed_temp_min` gets the required-field error, and a body with valid
required fields and `nozzle_temp_min:"abc"` gets the 400 naming
`nozzle_temp_min`. -/
theorem validation_precedence_witness :
    (postFilaments { demoBody with
        brand := none, bed_temp_min := some (.str "abc") } (initStore [])).1 =
      .badRequest requiredErrMsg ∧
    (postFilaments { demoBody with nozzle_temp_min := some (.str "abc") }
        (initStore [])).1 =
      .badRequest (numErrMsg "nozzle_temp_min") :=
  ⟨(validation_precedence _ _).1 rfl,
   (validation_precedence _ _).2.1 "nozzle_temp_min" (by decide) (by decide)⟩

/-- C6: any validation failure (missing required field or non-numeric
temperature field) yields a 400 and leaves the store untouched (the
checks precede all I/O), and on a storage failure — unreadable or
unparsable document, or an unwritable file — a valid request yields the
fixed generic 500 message, never the raw exception text, again with the
store untouched. -/
theorem error_boundary (b : Body) (st : Store) :
    ((requiredFieldsOk b = false ∨ firstNaNField b ≠ none) →
      statusOf (postFilaments b st).1 = 400 ∧ (postFilaments b st).2 = st) ∧
    (validBody b = true → ∀ msg, st.doc = .error msg →
      (postFilaments b st).1 = .serverError storageErrMsg ∧
      (postFilaments b st).2 = st) ∧
    (validBody b = true → st.writable = false →
      (postFilaments b st).1 = .serverError storageErrMsg ∧
      (postFilaments b st).2 = st) := by
  refine ⟨?_, ?_, ?_⟩
  · intro h
    rcases h with h | h
    · cases hb : truthy b.brand with
      | false => simp [postFilaments, statusOf, hb]
      | true =>
        cases hp : truthy b.product_name with
        | false => simp [postFilaments, statusOf, hb, hp]
        | true =>
          cases hm : truthy b.material with
          | false => simp [postFilaments, statusOf, hb, hp, hm]
          | true => simp [requiredFieldsOk, hb, hp, hm] at h
    · cases hn : firstNaNField b with
      | none => exact absurd hn h
      | some f =>
        cases hb : truthy b.brand with
        | false => simp [postFilaments, statusOf, hb]
        | true =>
          cases hp : truthy b.product_name with
          | false => simp [postFilaments, statusOf, hb, hp]
          | true =>
            cases hm : truthy b.material with
            | false => simp [postFilaments, statusOf, hb, hp, hm]
            | true => simp [postFilaments, statusOf, hb, hp, hm, hn]
  · intro hv msg hdoc
    obtain ⟨h1, h2, h3, h4⟩ := validBody_parts b hv
    simp [postFilaments, h1, h2, h3, h4, hdoc]
  · intro hv hw
    obtain ⟨h1, h2, h3, h4⟩ := validBody_parts b hv
    cases hdoc : st.doc with
    | error e => simp [postFilaments, h1, h2, h3, h4, hdoc]
    | ok dd => simp [postFilaments, h1, h2, h3, h4, hdoc, hw]

/-- A store whose document cannot be read or parsed; the message models
the raw exception text. -/
def badStore : Store :=
  { doc := .error "ENOENT: no such file or directory", writable := true }

/-- A readable store whose file cannot be written. -/
def roStore : Store :=
  { doc := .ok { materials := [], filaments := some [] }, writable := false }

/-- Witness for C6: an empty-`material` request against a good store is
rejected with 400 and changes nothing; a valid request against an
unreadable store, and against an unwritable store, gets the generic 500
and changes nothing. -/
theorem error_boundary_witness :
    (statusOf (postFilaments { demoBody with material := some (.str "") }
        (initStore [])).1 = 400 ∧
      (postFilaments { demoBody with material := some (.str "") }
        (initStore [])).2 = initStore []) ∧
    ((postFilaments demoBody badStore).1 = .serverError storageErrMsg ∧
      (postFilaments demoBody badStore).2 = badStore) ∧
    ((postFilaments demoBody roStore).1 = .serverError storageErrMsg ∧
      (postFilaments demoBody roStore).2 = roStore) :=
  ⟨(error_boundary { demoBody with material := some (.str "") }
      (initStore [])).1 (Or.inl (by decide)),
   (error_boundary demoBody badStore).2.1 (by decide)
     "ENOENT: no such file or directory" rfl,
   (error_boundary demoBody roStore).2.2 (by decide) rfl⟩

/-- The id the handler computes for the next record of a document. -/
def newIdOf (d : Catalog) : Nat := maxId (d.filaments.getD []) + 1

/-- C7: a valid request against a readable, writable store responds 201
`{ success: true, filament }` with the constructed record (carrying the
newly assigned id), and persists the document with exactly that record
appended; `color`/`special_type` default to null and `notes` to the
empty string when omitted. -/
theorem success_response (b : Body) (st : Store) (d : Catalog)
    (hv : validBody b = true) (hd : st.doc = .ok d) (hw : st.writable = true) :
    (postFilaments b st).1 = .created (mkFilament b (newIdOf d)) ∧
    (postFilaments b st).2 = { st with doc := .ok { d with
       filaments := some (d.filaments.getD [] ++ [mkFilament b (newIdOf d)]) } } ∧
    (mkFilament b (newIdOf d)).id = newIdOf d ∧
    (b.color = none → (mkFilament b (newIdOf d)).color = none) ∧
    (b.special_type = none → (mkFilament b (newIdOf d)).special_type = none) ∧
    (b.notes = none → (mkFilament b (newIdOf d)).notes = .str "") := by
  have h := postFilaments_success b st d hv hd hw
  refine ⟨?_, ?_, rfl, ?_, ?_, ?_⟩
  · rw [h]
    rfl
  · rw [h]
    rfl
  · intro hc
    have hfld : (mkFilament b (newIdOf d)).color =
        (if truthy b.color then b.color else none) := rfl
    rw [hfld, hc]
    rfl
  · intro hs
    have hfld : (mkFilament b (newIdOf d)).special_type =
        (if truthy b.special_type then b.special_type else none) := rfl
    rw [hfld, hs]
    rfl
  · intro hn
    have hfld : (mkFilament b (newIdOf d)).notes =
        ((if truthy b.notes then b.notes else some (.str "")).getD (.str "")) := rfl
    rw [hfld, hn]
    rfl

/-- Witness for C7 at the scenario-2 body against the empty store. -/
theorem success_response_witness :
    (postFilaments demoBody (initStore [])).1 =
      .created (mkFilament demoBody
        (newIdOf { materials := [], filaments := some [] })) ∧
    (mkFilament demoBody (newIdOf { materials := [], filaments := some [] })).id = 1 :=
  ⟨(success_response demoBody (initStore [])
      { materials := [], filaments := some [] } (by decide) rfl rfl).1,
   rfl⟩

/-- The empty catalog document. -/
def emptyCatalog : Catalog := { materials := [], filaments := some [] }

/-- C10: `Number("")` and `Number(null)` are `0`, `Number(undefined)` is
`NaN`; a temperature field present as the empty string or null passes
validation and is stored as `0` in the created record; an omitted
temperature field is rejected as non-numeric (naming the field); and,
required fields passing, the request is rejected with 400 exactly when
some temperature field's coercion is `NaN`. -/
theorem temp_emptyString_zero (b : Body) (st : Store) (d : Catalog) :
    (jsToNumber (some (.str "")) = some 0 ∧ jsToNumber (some .nullv) = some 0 ∧
      jsToNumber (none : Option JsVal) = none) ∧
    ((b.nozzle_temp_min = some (.str "") ∨ b.nozzle_temp_min = some .nullv) →
      ∀ i, (mkFilament b i).nozzle_temp_min = 0) ∧
    (requiredFieldsOk b = true → b.nozzle_temp_min = none →
      (postFilaments b st).1 = .badRequest (numErrMsg "nozzle_temp_min")) ∧
    (validBody b = true → st.doc = .ok d → st.writable = true →
      (postFilaments b st).1 = .created (mkFilament b (newIdOf d))) ∧
    (requiredFieldsOk b = true →
      (statusOf (postFilaments b st).1 = 400 ↔ firstNaNField b ≠ none)) := by
  refine ⟨⟨by decide, by decide, by decide⟩, ?_, ?_, ?_, ?_⟩
  · intro h i
    have hfld : (mkFilament b i).nozzle_temp_min =
        (jsToNumber b.nozzle_temp_min).getD 0 := rfl
    rw [hfld]
    rcases h with h | h <;> rw [h] <;> rfl
  · intro hr hn
    obtain ⟨h1, h2, h3⟩ := requiredOk_parts b hr
    have hf : firstNaNField b = some "nozzle_temp_min" := by
      simp [firstNaNField, tempFields, List.find?, hn, jsToNumber]
    simp [postFilaments, h1, h2, h3, hf]
  · intro hv hd hw
    rw [postFilaments_success b st d hv hd hw]
    rfl
  · intro hr
    obtain ⟨h1, h2, h3⟩ := requiredOk_parts b hr
    constructor
    · intro h400
      intro hn
      cases hdoc : st.doc with
      | error e => simp [postFilaments, statusOf, h1, h2, h3, hn, hdoc] at h400
      | ok dd =>
        cases hw : st.writable with
        | false => simp [postFilaments, statusOf, h1, h2, h3, hn, hdoc, hw] at h400
        | true => simp [postFilaments, statusOf, h1, h2, h3, hn, hdoc, hw] at h400
    · intro hn
      cases hf : firstNaNField b with
      | none => exact absurd hf hn
      | some f => simp [postFilaments, statusOf, h1, h2, h3, hf]

/-- Witness for C10: `nozzle_temp_min:""` is accepted, stored as `0`,
and the record is created; `nozzle_temp_min` omitted is rejected naming
the field. -/
theorem temp_emptyString_zero_witness :
    (mkFilament { demoBody with nozzle_temp_min := some (.str "") } 1).nozzle_temp_min = 0 ∧
    (postFilaments { demoBody with nozzle_temp_min := some (.str "") }
        (initStore [])).1 =
      .created (mkFilament { demoBody with nozzle_temp_min := some (.str "") }
        (newIdOf emptyCatalog)) ∧
    (postFilaments { demoBody with nozzle_temp_min := none } (initStore [])).1 =
      .badRequest (numErrMsg "nozzle_temp_min") :=
  ⟨(temp_emptyString_zero { demoBody with nozzle_temp_min := some (.str "") }
      (initStore []) emptyCatalog).2.1 (Or.inl rfl) 1,
   (temp_emptyString_zero { demoBody with nozzle_temp_min := some (.str "") }
      (initStore []) emptyCatalog).2.2.2.1 (by decide) rfl rfl,
   (temp_emptyString_zero { demoBody with nozzle_temp_min := none }
      (initStore []) emptyCatalog).2.2.1 (by decide) rfl⟩

end PortfolioPro
